import Mathlib

set_option maxRecDepth 8000

/- Shallow embedding of the mReasoner LISP-interface wrapper
   (src/mreasoner/mreasoner.py, with src/mreasoner.py as a near-duplicate of
   the pure parts). Python strings are modelled as Lean `String`, indexing and
   slicing on their character lists; machine floats used by the fitting
   objective are modelled exactly over `ℚ`; raised exceptions are modelled by
   `Option`/`Except`/explicit outcome constructors. -/

/-- ASCII whitespace recognised by Python's `str.split()` and by the
whitespace stripping inside `float(...)`. -/
def isPyWhitespace (c : Char) : Bool :=
  c = ' ' || c = '\t' || c = '\n' || c = '\r' || c = '\x0b' || c = '\x0c'

/-- Helper for Python's substring test: does `pat` occur as a prefix of `s`? -/
def listPrefix : List Char → List Char → Bool
  | [], _ => true
  | _ :: _, [] => false
  | a :: ps, b :: qs => a = b && listPrefix ps qs

/-- Helper for Python's substring test, scanning every suffix of `s`. -/
def containsSubstrAux (pat : List Char) : List Char → Bool
  | [] => pat.isEmpty
  | c :: rest => listPrefix pat (c :: rest) || containsSubstrAux pat rest

/-- Python's `pat in s` substring membership test. -/
def containsSubstr (s pat : String) : Bool :=
  containsSubstrAux pat.data s.data

/-- Python's `s.startswith(c)` for the single-character prefixes used by the
reader (`;` and `?`): a test on the first character. -/
def headIs (s : String) (c : Char) : Bool :=
  s.data.head? = some c

/-- Python's slice `s[2:]`, by characters. -/
def pyDrop2 (s : String) : String :=
  String.mk (s.data.drop 2)

/-- Source `template_quant` dictionary of `construct_premises`
(src/mreasoner/mreasoner.py lines 220-225): quantifier letter to sentence
template; Python's `template.format(x, y)` on these two-hole templates is
modelled by string concatenation around the two term arguments. An unknown
key raises `KeyError`, modelled by `none`. -/
def template_quant (q : Char) : Option (String → String → String) :=
  if q = 'A' then some (fun x y => "All " ++ x ++ " are " ++ y)
  else if q = 'I' then some (fun x y => "Some " ++ x ++ " are " ++ y)
  else if q = 'E' then some (fun x y => "No " ++ x ++ " are " ++ y)
  else if q = 'O' then some (fun x y => "Some " ++ x ++ " are not " ++ y)
  else none

/-- Source `template_fig` dictionary of `construct_premises`
(src/mreasoner/mreasoner.py lines 227-232): figure digit to the term pairs
substituted into the first and second premise templates. -/
def template_fig (f : Char) : Option ((String × String) × (String × String)) :=
  if f = '1' then some (("A", "B"), ("B", "C"))
  else if f = '2' then some (("B", "A"), ("C", "B"))
  else if f = '3' then some (("A", "B"), ("C", "B"))
  else if f = '4' then some (("B", "A"), ("B", "C"))
  else none

/-- `MReasoner.construct_premises` (src/mreasoner/mreasoner.py lines 204-236;
identical in src/mreasoner.py lines 113-145). It reads `syllog[0]`,
`syllog[1]` and `syllog[-1]`; an `IndexError` (string too short) or a
`KeyError` (character not a template key) is modelled by `none`. -/
def construct_premises (syllog : String) : Option (String × String) :=
  match syllog.data.head?, syllog.data[1]?, syllog.data.getLast? with
  | some c0, some c1, some cl =>
    match template_quant c0, template_quant c1, template_fig cl with
    | some tq1, some tq2, some fig =>
        some (tq1 fig.1.1 fig.1.2, tq2 fig.2.1 fig.2.2)
    | _, _, _ => none
  | _, _, _ => none

/-- The four quantifier letters of the syllogism identifier alphabet. -/
def QUANTS : List Char := ['A', 'I', 'E', 'O']

/-- The four figure digits of the syllogism identifier alphabet. -/
def FIGS : List Char := ['1', '2', '3', '4']

/-- Modelled from the spec: the documented quantifier sentence templates
("All _ are _", "Some _ are _", "No _ are _", "Some _ are not _"). -/
def spec_quant_sentence (q : Char) (x y : String) : String :=
  if q = 'A' then "All " ++ x ++ " are " ++ y
  else if q = 'I' then "Some " ++ x ++ " are " ++ y
  else if q = 'E' then "No " ++ x ++ " are " ++ y
  else "Some " ++ x ++ " are not " ++ y

/-- Modelled from the spec: the documented figure term arrangements for the
two premises (figure 1: A-B / B-C; 2: B-A / C-B; 3: A-B / C-B; 4: B-A / B-C). -/
def spec_fig_terms (f : Char) : (String × String) × (String × String) :=
  if f = '1' then (("A", "B"), ("B", "C"))
  else if f = '2' then (("B", "A"), ("C", "B"))
  else if f = '3' then (("A", "B"), ("C", "B"))
  else (("B", "A"), ("B", "C"))

/-- C3: for all 64 syllogism identifiers (two quantifier letters from
{A,I,E,O} and a figure digit from {1,2,3,4}), `construct_premises`
deterministically returns exactly the premise pair obtained by substituting
the figure's term arrangement into the quantifier templates; in particular
"AA1" yields ("All A are B", "All B are C") and "OE3" yields
("Some A are not B", "No C are B"). -/
theorem c3_construct_premises_table :
    (QUANTS.all fun q1 => QUANTS.all fun q2 => FIGS.all fun f =>
      decide (construct_premises (String.mk [q1, q2, f]) =
        some (spec_quant_sentence q1 (spec_fig_terms f).1.1 (spec_fig_terms f).1.2,
              spec_quant_sentence q2 (spec_fig_terms f).2.1 (spec_fig_terms f).2.2))) = true
    ∧ construct_premises "AA1" = some ("All A are B", "All B are C")
    ∧ construct_premises "OE3" = some ("Some A are not B", "No C are B") := by
  refine ⟨by decide, by decide, by decide⟩

/-- C10: `construct_premises` reads only the characters at positions 0 and 1
and the final position of its argument: two strings agreeing there (with the
characters drawn from the quantifier letters and figure digits) yield the
same premise pair, regardless of length or intervening characters; moreover
the shared result is an actual premise pair, not an error. -/
theorem c10_construct_premises_positions (s t : String) (q1 q2 f : Char)
    (hq1 : q1 ∈ QUANTS) (hq2 : q2 ∈ QUANTS) (hf : f ∈ FIGS)
    (hs0 : s.data.head? = some q1) (ht0 : t.data.head? = some q1)
    (hs1 : s.data[1]? = some q2) (ht1 : t.data[1]? = some q2)
    (hsl : s.data.getLast? = some f) (htl : t.data.getLast? = some f) :
    construct_premises s = construct_premises t ∧
      (construct_premises s).isSome := by
  constructor
  · simp only [construct_premises, hs0, ht0, hs1, ht1, hsl, htl]
  · simp only [construct_premises, hs0, hs1, hsl]
    fin_cases hq1 <;> fin_cases hq2 <;> fin_cases hf <;> decide

/-- Closed witness for C10: the identifiers "AA1" and "AAxy1" agree at
positions 0, 1 and the final position, and indeed produce the same premise
pair. -/
theorem c10_construct_premises_positions_witness :
    construct_premises "AA1" = construct_premises "AAxy1" ∧
      (construct_premises "AA1").isSome :=
  c10_construct_premises_positions "AA1" "AAxy1" 'A' 'A' '1'
    (by decide) (by decide) (by decide)
    (by decide) (by decide) (by decide) (by decide) (by decide) (by decide)

/-- Case-insensitive comparison of a character list against a lowercase word,
for `float(...)`'s "inf"/"infinity"/"nan" alternatives. -/
def lowerEq (cs : List Char) (t : List Char) : Bool :=
  cs.map Char.toLower == t

/-- Continuation of a Python digit-part: digits with single underscores
allowed only between digits. -/
def digitpartAux : List Char → Bool
  | [] => true
  | '_' :: c :: rest => ('0' ≤ c && c ≤ '9') && digitpartAux rest
  | c :: rest => ('0' ≤ c && c ≤ '9') && digitpartAux rest

/-- A Python digit-part: `digit (["_"] digit)*`, nonempty. -/
def digitpart : List Char → Bool
  | [] => false
  | c :: rest => ('0' ≤ c && c ≤ '9') && digitpartAux rest

/-- Split a float body at the first exponent marker `e`/`E`, if any. -/
def mantExp : List Char → List Char × Option (List Char)
  | [] => ([], none)
  | c :: rest =>
    if c = 'e' || c = 'E' then ([], some rest)
    else
      let p := mantExp rest
      (c :: p.1, p.2)

/-- Split a mantissa at its first decimal point, if any. -/
def splitDot : List Char → Option (List Char × List Char)
  | [] => none
  | c :: rest =>
    if c = '.' then some ([], rest)
    else
      match splitDot rest with
      | none => none
      | some p => some (c :: p.1, p.2)

/-- A Python float mantissa: `digitpart | digitpart "." [digitpart] |
"." digitpart` (at most one dot). -/
def mantissaOK (cs : List Char) : Bool :=
  match splitDot cs with
  | none => digitpart cs
  | some p =>
    (splitDot p.2).isNone &&
      ((digitpart p.1 && (p.2.isEmpty || digitpart p.2)) ||
        (p.1.isEmpty && digitpart p.2))

/-- A Python float exponent: optional sign then a digit-part. -/
def signedDigitpart : List Char → Bool
  | '+' :: rest => digitpart rest
  | '-' :: rest => digitpart rest
  | cs => digitpart cs

/-- An unsigned Python decimal float body: mantissa with optional exponent. -/
def pyDecimal (cs : List Char) : Bool :=
  let p := mantExp cs
  mantissaOK p.1 &&
    (match p.2 with
     | none => true
     | some ex => signedDigitpart ex)

/-- Strip leading and trailing Python whitespace from a character list. -/
def trimPyWs (cs : List Char) : List Char :=
  ((cs.dropWhile isPyWhitespace).reverse.dropWhile isPyWhitespace).reverse

/-- Does Python's `float(s)` succeed?  Models the grammar accepted by the
`float` constructor: optional surrounding whitespace, optional sign, then a
decimal literal (underscores between digits, optional exponent) or a
case-insensitive "inf"/"infinity"/"nan".  Used by the reader's
`is_float` check (src/mreasoner/mreasoner.py lines 130-135). -/
def pyFloatParses (s : String) : Bool :=
  let cs := trimPyWs s.data
  let body :=
    match cs with
    | '+' :: rest => rest
    | '-' :: rest => rest
    | _ => cs
  lowerEq body "inf".data || lowerEq body "infinity".data ||
    lowerEq body "nan".data || pyDecimal body

/-- Outcome of one iteration of the reader loop: go on reading, leave the
loop (`break`), or die with an uncaught `IndexError` (`query_result[0]` on an
empty payload). -/
inductive LineStep
  | cont
  | brk
  | crash
deriving DecidableEq

/-- The `HALT` entries pushed for a line by the error rule
(src/mreasoner/mreasoner.py lines 122-123). -/
def halt_pushes (text : String) : List String :=
  if containsSubstr text "While executing:" || containsSubstr text "Error:" then
    ["HALT"]
  else []

/-- Python's `s.replace(old, '')` for a single-character pattern: remove
every occurrence of that character. -/
def removeChar (s : String) (c : Char) : String :=
  String.mk (s.data.filter (fun x => x ≠ c))

/-- One iteration of `stdout_reader`'s loop body
(src/mreasoner/mreasoner.py lines 108-153) as a pure function of the
already-stripped line text.  Returns the queue entries pushed for this line,
in order, and whether the loop continues, breaks, or crashes. -/
def process_line (text : String) : List String × LineStep :=
  if headIs text ';' then ([], .cont)
  else if containsSubstr text "TERMINATE" then ([], .brk)
  else if headIs text '?' then
    let query_result := pyDrop2 text
    if pyFloatParses query_result then (halt_pushes text, .cont)
    else
      match query_result.data.head?, query_result.data.getLast? with
      | some c0, some cn =>
        if c0 = '(' && cn = ')' then
          (halt_pushes text ++ [query_result], .cont)
        else if c0 = '"' && cn = '"' then
          (halt_pushes text ++ [removeChar query_result '"'], .cont)
        else if query_result = "NIL" then
          (halt_pushes text ++ [query_result], .cont)
        else (halt_pushes text, .cont)
      | _, _ => (halt_pushes text, .crash)
  else (halt_pushes text, .cont)

/-- C2 counterexample: the line `? (Error: x)` both contains the error
substring `Error:` and carries a parenthesized query-result payload, and the
reader pushes TWO entries for it (`HALT`, then the payload), because the
error rule does not stop classification — refuting the claimed at-most-one
queue entry per line. -/
theorem c2_counterexample :
    process_line "? (Error: x)" = (["HALT", "(Error: x)"], LineStep.cont) ∧
      (process_line "? (Error: x)").1.length = 2 := by
  refine ⟨by decide, by decide⟩

/-- C2 (amended): per processed line the reader pushes at most TWO queue
entries, and whenever it pushes two, the line both matched the error rule
(`While executing:` or `Error:`) and was a query-result line, with `HALT`
pushed first — the error rule does not stop classification, so such a line
is forwarded twice. -/
theorem c2_amended_enqueue_bound (text : String) :
    (process_line text).1.length ≤ 2 ∧
      ((process_line text).1.length = 2 →
        (containsSubstr text "While executing:" ||
          containsSubstr text "Error:") = true ∧
        headIs text '?' = true ∧
        (process_line text).1.head? = some "HALT") := by
  by_cases hA : headIs text ';' = true
  · simp [process_line, hA]
  · by_cases hB : containsSubstr text "TERMINATE" = true
    · simp [process_line, hA, hB]
    · by_cases hE : (containsSubstr text "While executing:" ||
          containsSubstr text "Error:") = true
      · have hh : halt_pushes text = ["HALT"] := by simp [halt_pushes, hE]
        by_cases hQ : headIs text '?' = true
        · by_cases hF : pyFloatParses (pyDrop2 text) = true
          · simp [process_line, hA, hB, hQ, hF, hh]
          · rcases h0 : (pyDrop2 text).data.head? with _ | c0
            · simp [process_line, hA, hB, hQ, hF, hh, h0]
            · rcases hl : (pyDrop2 text).data.getLast? with _ | cn
              · simp [process_line, hA, hB, hQ, hF, hh, h0, hl]
              · simp only [process_line, hA, hB, hQ, hF, hh, h0, hl,
                  Bool.not_eq_true, if_false, if_true, eq_self_iff_true]
                by_cases hc1 : (c0 = '(' && cn = ')') = true
                · simp [hc1, hE, hQ]
                · by_cases hc2 : (c0 = '"' && cn = '"') = true
                  · simp [hc1, hc2, hE, hQ]
                  · by_cases hc3 : pyDrop2 text = "NIL"
                    · simp [hc1, hc2, hc3, hE, hQ]
                    · simp [hc1, hc2, hc3, hE, hQ]
        · simp [process_line, hA, hB, hQ, hh]
      · have hh : halt_pushes text = [] := by simp [halt_pushes, hE]
        by_cases hQ : headIs text '?' = true
        · by_cases hF : pyFloatParses (pyDrop2 text) = true
          · simp [process_line, hA, hB, hQ, hF, hh]
          · rcases h0 : (pyDrop2 text).data.head? with _ | c0
            · simp [process_line, hA, hB, hQ, hF, hh, h0]
            · rcases hl : (pyDrop2 text).data.getLast? with _ | cn
              · simp [process_line, hA, hB, hQ, hF, hh, h0, hl]
              · simp only [process_line, hA, hB, hQ, hF, hh, h0, hl,
                  Bool.not_eq_true, if_false, if_true, eq_self_iff_true]
                by_cases hc1 : (c0 = '(' && cn = ')') = true
                · simp [hc1]
                · by_cases hc2 : (c0 = '"' && cn = '"') = true
                  · simp [hc1, hc2]
                  · by_cases hc3 : pyDrop2 text = "NIL"
                    · simp [hc1, hc2, hc3]
                    · simp [hc1, hc2, hc3]
        · simp [process_line, hA, hB, hQ, hh]

/-- Closed witness for C2 (amended): at the line `? (Error: x)` the bound of
two is attained, with the error and query-result conditions both true and
`HALT` pushed first. -/
theorem c2_amended_enqueue_bound_witness :
    (process_line "? (Error: x)").1.length ≤ 2 ∧
      ((process_line "? (Error: x)").1.length = 2 →
        (containsSubstr "? (Error: x)" "While executing:" ||
          containsSubstr "? (Error: x)" "Error:") = true ∧
        headIs "? (Error: x)" '?' = true ∧
        (process_line "? (Error: x)").1.head? = some "HALT") :=
  c2_amended_enqueue_bound "? (Error: x)"

/-- C4 counterexample: the claim's rule "a payload wrapped in double quotes
is enqueued with the quotes stripped" fails on the line `? "TERMINATE"`:
its payload is quote-wrapped, yet the termination rule fires first, the loop
stops and nothing is enqueued. -/
theorem c4_counterexample :
    (pyDrop2 "? \"TERMINATE\"").data.head? = some '"' ∧
      (pyDrop2 "? \"TERMINATE\"").data.getLast? = some '"' ∧
      process_line "? \"TERMINATE\"" = ([], LineStep.brk) := by
  refine ⟨by decide, by decide, by decide⟩

/-- C4 (amended): the reader's per-line classification applies its rules in
the source's priority order.  For every line: (a) a line starting with `;`
is dropped; otherwise (b) a line containing `TERMINATE` terminates the read
loop; otherwise (c) a line containing an error substring gets a Halt entry
enqueued first (classification then still continues); otherwise, for a
query-result line (starting with `?`, payload the slice from index 2):
(d) a float payload is dropped; (e) a non-float payload wrapped in
parentheses is enqueued unchanged; (f) one wrapped in double quotes is
enqueued with all quotes removed; (g) the payload `NIL` is enqueued. -/
theorem c4_amended_classification (t : String) :
    (headIs t ';' = true → process_line t = ([], LineStep.cont)) ∧
      (headIs t ';' = false → containsSubstr t "TERMINATE" = true →
        process_line t = ([], LineStep.brk)) ∧
      (headIs t ';' = false → containsSubstr t "TERMINATE" = false →
        (containsSubstr t "While executing:" ||
          containsSubstr t "Error:") = true →
        (process_line t).1.head? = some "HALT") ∧
      (headIs t ';' = false → containsSubstr t "TERMINATE" = false →
        (containsSubstr t "While executing:" ||
          containsSubstr t "Error:") = false →
        headIs t '?' = true → pyFloatParses (pyDrop2 t) = true →
        process_line t = ([], LineStep.cont)) ∧
      (headIs t ';' = false → containsSubstr t "TERMINATE" = false →
        (containsSubstr t "While executing:" ||
          containsSubstr t "Error:") = false →
        headIs t '?' = true → pyFloatParses (pyDrop2 t) = false →
        (pyDrop2 t).data.head? = some '(' →
        (pyDrop2 t).data.getLast? = some ')' →
        process_line t = ([pyDrop2 t], LineStep.cont)) ∧
      (headIs t ';' = false → containsSubstr t "TERMINATE" = false →
        (containsSubstr t "While executing:" ||
          containsSubstr t "Error:") = false →
        headIs t '?' = true → pyFloatParses (pyDrop2 t) = false →
        (pyDrop2 t).data.head? = some '"' →
        (pyDrop2 t).data.getLast? = some '"' →
        process_line t = ([removeChar (pyDrop2 t) '"'], LineStep.cont)) ∧
      (headIs t ';' = false → containsSubstr t "TERMINATE" = false →
        (containsSubstr t "While executing:" ||
          containsSubstr t "Error:") = false →
        headIs t '?' = true → pyDrop2 t = "NIL" →
        process_line t = (["NIL"], LineStep.cont)) := by
  refine ⟨?_, ?_, ?_, ?_, ?_, ?_, ?_⟩
  · intro hA
    simp [process_line, hA]
  · intro hA hB
    simp [process_line, hA, hB]
  · intro hA hB hE
    have hh : halt_pushes t = ["HALT"] := by simp [halt_pushes, hE]
    by_cases hQ : headIs t '?' = true
    · by_cases hF : pyFloatParses (pyDrop2 t) = true
      · simp [process_line, hA, hB, hQ, hF, hh]
      · rcases h0 : (pyDrop2 t).data.head? with _ | c0
        · simp [process_line, hA, hB, hQ, hF, hh, h0]
        · rcases hl : (pyDrop2 t).data.getLast? with _ | cn
          · simp [process_line, hA, hB, hQ, hF, hh, h0, hl]
          · simp only [process_line, hA, hB, hQ, hF, hh, h0, hl,
              Bool.not_eq_true, if_false, if_true, eq_self_iff_true]
            by_cases hc1 : (c0 = '(' && cn = ')') = true
            · simp [hc1]
            · by_cases hc2 : (c0 = '"' && cn = '"') = true
              · simp [hc1, hc2]
              · by_cases hc3 : pyDrop2 t = "NIL"
                · simp [hc1, hc2, hc3]
                · simp [hc1, hc2, hc3]
    · simp [process_line, hA, hB, hQ, hh]
  · intro hA hB hE hQ hF
    have hh : halt_pushes t = [] := by simp [halt_pushes, hE]
    simp [process_line, hA, hB, hQ, hF, hh]
  · intro hA hB hE hQ hF h0 hl
    have hh : halt_pushes t = [] := by simp [halt_pushes, hE]
    simp [process_line, hA, hB, hQ, hF, hh, h0, hl]
  · intro hA hB hE hQ hF h0 hl
    have hh : halt_pushes t = [] := by simp [halt_pushes, hE]
    simp [process_line, hA, hB, hQ, hF, hh, h0, hl]
  · intro hA hB hE hQ hN
    have hh : halt_pushes t = [] := by simp [halt_pushes, hE]
    have hF : pyFloatParses (pyDrop2 t) = false := by rw [hN]; decide
    have h0 : (pyDrop2 t).data.head? = some 'N' := by rw [hN]; decide
    have hl : (pyDrop2 t).data.getLast? = some 'L' := by rw [hN]; decide
    simp [process_line, hA, hB, hQ, hF, hh, h0, hl, hN]
    all_goals decide

/-- Closed witness for C4 (amended): the spec's own test vectors — the
parenthesized payload line `? (Aac Ice)` is enqueued unchanged, the quoted
payload line is enqueued with quotes stripped, and `? NIL` is enqueued. -/
theorem c4_amended_classification_witness :
    process_line "? (Aac Ice)" = (["(Aac Ice)"], LineStep.cont) ∧
      process_line "? \"Aac\"" = (["Aac"], LineStep.cont) ∧
      process_line "? NIL" = (["NIL"], LineStep.cont) := by
  refine ⟨?_, ?_, ?_⟩
  · have h := (c4_amended_classification "? (Aac Ice)").2.2.2.2.1
      (by decide) (by decide) (by decide) (by decide) (by decide)
      (by decide) (by decide)
    rw [h]; decide
  · have h := (c4_amended_classification "? \"Aac\"").2.2.2.2.2.1
      (by decide) (by decide) (by decide) (by decide) (by decide)
      (by decide) (by decide)
    rw [h]; decide
  · have h := (c4_amended_classification "? NIL").2.2.2.2.2.2
      (by decide) (by decide) (by decide) (by decide) (by decide)
    rw [h]

/-- Python's `str.split()`: split on whitespace runs, dropping empty pieces.
Accumulator-based scan over the character list. -/
def wordsAux : List Char → List Char → List (List Char)
  | [], acc => if acc.isEmpty then [] else [acc.reverse]
  | c :: rest, acc =>
    if isPyWhitespace c then
      if acc.isEmpty then wordsAux rest [] else acc.reverse :: wordsAux rest []
    else wordsAux rest (c :: acc)

/-- Python's `str.split()` on a string. -/
def pySplit (s : String) : List String :=
  (wordsAux s.data []).map String.mk

/-- The final candidate parsing of `MReasoner.query`
(src/mreasoner/mreasoner.py line 284):
`conclusion.replace('"', '').replace('(', '').replace(')', '').split()`. -/
def parse_candidates (conclusion : String) : List String :=
  pySplit (removeChar (removeChar (removeChar conclusion '"') '(') ')')

/-- The branch taken by `MReasoner.query` on the generation-phase queue entry
(src/mreasoner/mreasoner.py lines 265-282), including the dead inner
assertion of the null/nil branch.  `assertNullQ` is the `assert False`
guarded by `'Q-INTENSION' in query_result` INSIDE the null/nil branch
(line 277-278); `assertInvalid` is the `assert False` of the final `else`
branch (line 282). -/
inductive Phase1
  | quantified
  | nvc
  | assertNullQ
  | assertInvalid
deriving DecidableEq

/-- The dispatch on the phase-one response string in `MReasoner.query`. -/
def query_dispatch (query_result : String) : Phase1 :=
  if containsSubstr query_result "Q-INTENSION" then .quantified
  else if containsSubstr query_result "NULL-INTENSION" ||
      query_result = "NIL" then
    if containsSubstr query_result "Q-INTENSION" then .assertNullQ else .nvc
  else .assertInvalid

/-- What `MReasoner.query` produces once the generation-phase queue entry is
in hand: either the parsed candidate list, or an uncaught `AssertionError`
from one of the two `assert False` statements. -/
inductive QueryResult
  | ok (candidates : List String)
  | assertionFailure
deriving DecidableEq

/-- `MReasoner.query` after the first command round-trip, as a function of
the generation-phase queue entry `entry1` and (when the second interpretation
command is issued) the interpretation-phase queue entry `entry2`.  The `Bool`
records whether the second command
`(map 'list (lambda (x) (abbreviate x)) resp)` was sent to the child
process. -/
def query_outcome (entry1 entry2 : String) : QueryResult × Bool :=
  match query_dispatch entry1 with
  | .quantified => (.ok (parse_candidates entry2), true)
  | .nvc => (.ok (parse_candidates "NVC"), false)
  | .assertNullQ => (.assertionFailure, false)
  | .assertInvalid => (.assertionFailure, false)

/-- C1 counterexample: on the generation-phase entry `HALT` (the string the
reader pushes on an engine error), `query` does NOT propagate a Halt
outcome — the entry falls into the invalid-response `else` branch and the
call dies on `assert False`, an unrelated assertion failure. -/
theorem c1_counterexample :
    query_dispatch "HALT" = Phase1.assertInvalid ∧
      query_outcome "HALT" "" = (QueryResult.assertionFailure, false) := by
  refine ⟨by decide, by decide⟩

/-- C1 (amended): for every query call whose generation-phase queue entry is
the Halt signal `HALT`, `query` sends no second interpretation command, but
instead of returning a distinguished Halt outcome it takes the
invalid-response branch and raises an `AssertionError`; the Halt signal
unblocks the caller only by crashing it. -/
theorem c1_amended_halt_entry_asserts (entry2 : String) :
    query_dispatch "HALT" = Phase1.assertInvalid ∧
      query_outcome "HALT" entry2 = (QueryResult.assertionFailure, false) := by
  refine ⟨by decide, ?_⟩
  simp [query_outcome, show query_dispatch "HALT" = Phase1.assertInvalid by decide]

/-- Closed witness for C1 (amended): the `HALT` entry at a concrete
interpretation-phase entry. -/
theorem c1_amended_halt_entry_asserts_witness :
    query_dispatch "HALT" = Phase1.assertInvalid ∧
      query_outcome "HALT" "(\"Aac\")" = (QueryResult.assertionFailure, false) :=
  c1_amended_halt_entry_asserts "(\"Aac\")"

/-- C5 counterexample: the entry `NULL-INTENSION Q-INTENSION` indicates a
null intension (it contains `NULL-INTENSION`), yet `query` takes the
quantified-intension branch and DOES send the second interpretation command
(second component `true`), refuting the claim as stated. -/
theorem c5_counterexample :
    containsSubstr "NULL-INTENSION Q-INTENSION" "NULL-INTENSION" = true ∧
      query_outcome "NULL-INTENSION Q-INTENSION" "" =
        (QueryResult.ok [], true) := by
  refine ⟨by decide, by decide⟩

/-- C5 (amended): for every query call whose generation-phase queue entry
does not contain `Q-INTENSION` and either indicates a null intension
(contains `NULL-INTENSION`) or is the literal `NIL`, `query` returns the
fixed no-valid-conclusion marker — the candidate list `["NVC"]` — and sends
no second command to the child process. -/
theorem c5_amended_nvc (entry1 entry2 : String)
    (hq : containsSubstr entry1 "Q-INTENSION" = false)
    (hn : containsSubstr entry1 "NULL-INTENSION" = true ∨ entry1 = "NIL") :
    query_outcome entry1 entry2 = (QueryResult.ok ["NVC"], false) := by
  have hd : query_dispatch entry1 = Phase1.nvc := by
    rcases hn with hn | hn
    · simp [query_dispatch, hq, hn]
    · subst hn; decide
  simp [query_outcome, hd]
  decide

/-- Closed witness for C5 (amended): the literal `NIL` entry yields the
`["NVC"]` candidate list with no second command sent. -/
theorem c5_amended_nvc_witness :
    query_outcome "NIL" "" = (QueryResult.ok ["NVC"], false) :=
  c5_amended_nvc "NIL" "" (by decide) (Or.inr rfl)

/-- C9: the assertion inside `query`'s null-intension branch that is guarded
by the phase-one response containing `Q-INTENSION` is unreachable: no
phase-one response string whatsoever makes the dispatch end in that inner
`assert False`, because the null/nil branch is only entered when the
response does not contain `Q-INTENSION`. -/
theorem c9_dead_assert_unreachable (query_result : String) :
    query_dispatch query_result ≠ Phase1.assertNullQ := by
  unfold query_dispatch
  by_cases hq : containsSubstr query_result "Q-INTENSION" = true
  · simp [hq]
  · by_cases hn : (containsSubstr query_result "NULL-INTENSION" ||
        query_result = "NIL") = true
    · simp [hq, hn]
    · simp [hq, hn]

/-- Closed witness for C9: the dispatch of the `NIL` entry in particular does
not end in the dead inner assertion. -/
theorem c9_dead_assert_unreachable_witness :
    query_dispatch "NIL" ≠ Phase1.assertNullQ :=
  c9_dead_assert_unreachable "NIL"

/-- The four mReasoner parameters held by the wrapper
(src/mreasoner/mreasoner.py lines 173-179). -/
structure Params where
  epsilon : ℚ
  lambda : ℚ
  omega : ℚ
  sigma : ℚ
deriving DecidableEq

/-- A command sent to the child process via `_send`; for the parameter
claims only the `(setf +name+ value)` parameter assignment matters. -/
inductive MCmd
  | setParam (name : String) (value : ℚ)
deriving DecidableEq

/-- Wrapper state relevant to the parameter claims: the stored parameter
dictionary and the append-only `executed_commands` log of `_send`. -/
structure MState where
  params : Params
  cmds : List MCmd
deriving DecidableEq

/-- The recognised parameter names, in the fixed order used by
`set_param_vec` and the `default_params` dictionary. -/
def PARAM_NAMES : List String := ["epsilon", "lambda", "omega", "sigma"]

/-- The factory-default parameter dictionary
(src/mreasoner/mreasoner.py lines 173-178). -/
def default_params : Params :=
  { epsilon := 0, lambda := 4, omega := 1, sigma := 0 }

/-- Update one named entry of the parameter dictionary (the assignment
`self.params[param] = value` for a key already known to be recognised). -/
def updateParam (p : Params) (name : String) (value : ℚ) : Params :=
  if name = "epsilon" then { p with epsilon := value }
  else if name = "lambda" then { p with lambda := value }
  else if name = "omega" then { p with omega := value }
  else { p with sigma := value }

/-- Read one named entry of the parameter dictionary
(`self.default_params[x]`). -/
def getParam (p : Params) (name : String) : ℚ :=
  if name = "epsilon" then p.epsilon
  else if name = "lambda" then p.lambda
  else if name = "omega" then p.omega
  else p.sigma

/-- `MReasoner.set_param` (src/mreasoner/mreasoner.py lines 301-326).  An
unrecognised name raises `ValueError` BEFORE any state change or `_send`,
modelled by `Except.error` carrying the message (so no updated state and no
appended command exist on that path); a recognised name updates the stored
value — with no bounds check — and appends the parameter-assignment command
to the command log. -/
def set_param (st : MState) (param : String) (value : ℚ) :
    Except String MState :=
  if param ∈ PARAM_NAMES then
    Except.ok { params := updateParam st.params param value,
                cmds := st.cmds ++ [MCmd.setParam param value] }
  else Except.error ("Attempted to set invalid parameter: " ++ param)

/-- `set_param` on a name known to be valid (as in `set_param_vec` and the
default-reset loop of `fit`, where the `ValueError` path is unreachable). -/
def set_param_ok (st : MState) (param : String) (value : ℚ) : MState :=
  match set_param st param value with
  | Except.ok st' => st'
  | Except.error _ => st

/-- `MReasoner.set_param_vec` (src/mreasoner/mreasoner.py lines 328-341):
zip the fixed name order with the value vector (truncating like Python's
`zip`) and set each in turn. -/
def set_param_vec (st : MState) (values : List ℚ) : MState :=
  (PARAM_NAMES.zip values).foldl (fun s nv => set_param_ok s nv.1 nv.2) st

/-- C8: `set_param` rejects every name outside
{epsilon, lambda, omega, sigma} with the `ValueError` (carrying the
invalid-parameter message) raised before any state change or command send —
so the stored values stay untouched and nothing is written to the child —
while for every recognised name EVERY value is accepted (no bounds are
enforced on direct set), updating the store and appending exactly the
parameter-assignment command. -/
theorem c8_set_param_validation (st : MState) :
    (∀ name value, name ∉ PARAM_NAMES →
      set_param st name value =
        Except.error ("Attempted to set invalid parameter: " ++ name)) ∧
      (∀ name value, name ∈ PARAM_NAMES →
        set_param st name value =
          Except.ok { params := updateParam st.params name value,
                      cmds := st.cmds ++ [MCmd.setParam name value] }) := by
  constructor
  · intro name value h
    simp [set_param, h]
  · intro name value h
    simp [set_param, h]

/-- Closed witness for C8: the unknown name `delta` is rejected with the
`ValueError` message, while the recognised name `epsilon` accepts the
out-of-bounds value 99 (bounds are not enforced on direct set). -/
theorem c8_set_param_validation_witness :
    set_param { params := default_params, cmds := [] } "delta" 42 =
        Except.error "Attempted to set invalid parameter: delta" ∧
      set_param { params := default_params, cmds := [] } "epsilon" 99 =
        Except.ok { params := updateParam default_params "epsilon" 99,
                    cmds := [MCmd.setParam "epsilon" 99] } := by
  constructor
  · have h := (c8_set_param_validation
      { params := default_params, cmds := [] }).1 "delta" 42 (by decide)
    rw [h]
    rfl
  · exact (c8_set_param_validation
      { params := default_params, cmds := [] }).2 "epsilon" 99 (by decide)

/-- Folding `acc + f x` over a list equals the initial value plus the sum of
the mapped list (the loop `score += ...` of `_fit_fun` as a sum). -/
theorem foldl_add_eq_sum {α : Type} (f : α → ℚ) (l : List α) :
    ∀ a : ℚ, l.foldl (fun acc x => acc + f x) a = a + (l.map f).sum := by
  induction l with
  | nil => intro a; simp
  | cons x xs ih =>
    intro a
    simp only [List.foldl_cons, List.map_cons, List.sum_cons, ih]
    ring

/-- A mapped sum over a list all of whose images are 1 is the list length. -/
theorem sum_map_all_one {α : Type} (f : α → ℚ) (l : List α)
    (h : ∀ x ∈ l, f x = 1) : (l.map f).sum = l.length := by
  induction l with
  | nil => simp
  | cons a l ih =>
    simp only [List.map_cons, List.sum_cons, List.length_cons]
    rw [h a (by simp), ih (fun x hx => h x (by simp [hx]))]
    push_cast
    ring

/-- A mapped sum over a list all of whose images are 0 is 0. -/
theorem sum_map_all_zero {α : Type} (f : α → ℚ) (l : List α)
    (h : ∀ x ∈ l, f x = 0) : (l.map f).sum = 0 := by
  induction l with
  | nil => simp
  | cons a l ih =>
    simp only [List.map_cons, List.sum_cons]
    rw [h a (by simp), ih (fun x hx => h x (by simp [hx]))]
    ring

/-- `MReasoner._fit_fun` (src/mreasoner/mreasoner.py lines 343-379) with the
black-box engine abstracted as `predict`: the candidate list the engine
returns for a task once the parameter store holds the given parameters.  The
method first sets the parameter vector (a state side effect), then loops
`score += 1/len(pred) if resp in pred else 0` over `zip(train_x, train_y)`
(truncating like Python's `zip`) and returns
`inaccuracy = 1 - score/len(train_x)`; float arithmetic is modelled exactly
over `ℚ`. -/
def fit_fun (st : MState) (predict : Params → String → List String)
    (params : List ℚ) (train_x train_y : List String) : MState × ℚ :=
  (set_param_vec st params,
    1 - ((train_x.zip train_y).foldl
      (fun acc p =>
        acc + (if p.2 ∈ predict (set_param_vec st params).params p.1 then
          (1 : ℚ) / ((predict (set_param_vec st params).params p.1).length : ℚ)
        else 0)) 0) / (train_x.length : ℚ))

/-- Modelled from the spec: the per-pair partial-credit score
`score_i = 1/|candidates_i|` if the observed response is among the predicted
candidates, else 0. -/
def score_spec (cands : List String) (resp : String) : ℚ :=
  if resp ∈ cands then 1 / (cands.length : ℚ) else 0

/-- Modelled from the spec: the fitting objective
`inaccuracy(params, X, Y) = 1 - (Σ score_i) / |X|`, with `cands` the
engine's candidate function at the given parameters. -/
def inaccuracy_spec (cands : String → List String) (X Y : List String) : ℚ :=
  1 - ((X.zip Y).map (fun p => score_spec (cands p.1) p.2)).sum /
    (X.length : ℚ)

/-- C6: the fitting objective computed by `_fit_fun` equals the spec formula
`1 - (Σ score_i)/|X|` with partial credit `1/|candidates_i|`; consequently,
on a nonempty training set, an engine that always returns the observed
response as the sole candidate gives objective 0, and one that always
returns a single wrong candidate gives objective 1. -/
theorem c6_fit_fun_objective (st : MState)
    (predict : Params → String → List String) (params : List ℚ)
    (X Y : List String) :
    (fit_fun st predict params X Y).2 =
        inaccuracy_spec (predict (set_param_vec st params).params) X Y ∧
      (X ≠ [] → X.length = Y.length →
        (∀ p ∈ X.zip Y, predict (set_param_vec st params).params p.1 = [p.2]) →
        (fit_fun st predict params X Y).2 = 0) ∧
      (X ≠ [] →
        (∀ p ∈ X.zip Y, ∃ w, predict (set_param_vec st params).params p.1 = [w]
          ∧ w ≠ p.2) →
        (fit_fun st predict params X Y).2 = 1) := by
  have hbase : (fit_fun st predict params X Y).2 =
      inaccuracy_spec (predict (set_param_vec st params).params) X Y := by
    simp only [fit_fun, inaccuracy_spec, score_spec]
    rw [foldl_add_eq_sum, zero_add]
  refine ⟨hbase, ?_, ?_⟩
  · intro hne hlen hall
    rw [hbase]
    unfold inaccuracy_spec
    rw [sum_map_all_one _ _ (fun p hp => by simp [score_spec, hall p hp])]
    rw [List.length_zip, hlen, min_self]
    have hl0 : (Y.length : ℚ) ≠ 0 := by
      have hn : Y.length ≠ 0 := by
        rw [← hlen]
        exact fun h => hne (List.length_eq_zero.mp h)
      exact_mod_cast hn
    rw [div_self hl0]
    ring
  · intro hne hall
    rw [hbase]
    unfold inaccuracy_spec
    rw [sum_map_all_zero _ _ (fun p hp => by
      obtain ⟨w, hw, hwne⟩ := hall p hp
      simp [score_spec, hw, Ne.symm hwne])]
    rw [zero_div]
    ring

/-- Closed witness for C6: on the one-pair training set (task "AA1",
response "Aac"), a stub engine always answering `["Aac"]` gives objective 0,
and one always answering the single wrong candidate `["Iac"]` gives 1. -/
theorem c6_fit_fun_objective_witness :
    (fit_fun { params := default_params, cmds := [] }
        (fun _ _ => ["Aac"]) [0, 4, 1, 0] ["AA1"] ["Aac"]).2 = 0 ∧
      (fit_fun { params := default_params, cmds := [] }
        (fun _ _ => ["Iac"]) [0, 4, 1, 0] ["AA1"] ["Aac"]).2 = 1 := by
  constructor
  · exact (c6_fit_fun_objective { params := default_params, cmds := [] }
      (fun _ _ => ["Aac"]) [0, 4, 1, 0] ["AA1"] ["Aac"]).2.1
      (by decide) (by decide) (by decide)
  · exact (c6_fit_fun_objective { params := default_params, cmds := [] }
      (fun _ _ => ["Iac"]) [0, 4, 1, 0] ["AA1"] ["Aac"]).2.2
      (by decide)
      (fun p hp => by
        simp only [List.zip_cons_cons, List.zip_nil_right,
          List.mem_singleton] at hp
        subst hp
        exact ⟨"Iac", rfl, by decide⟩)

/-- `sorted(results, key=lambda x: x[0])[0]` of `MReasoner.fit`
(src/mreasoner/mreasoner.py line 433): the first element of a stable sort by
score, i.e. the earliest entry with minimal score; `none` models the
`IndexError` on an empty list. -/
def min_by_score : List (ℚ × List ℚ) → Option (ℚ × List ℚ)
  | [] => none
  | x :: xs => some (xs.foldl (fun b y => if y.1 < b.1 then y else b) x)

/-- `MReasoner.fit` (src/mreasoner/mreasoner.py lines 381-436) with the
`num_fits` scipy `L-BFGS-B` runs abstracted as `runs`: `some (score, x)` for
a run with `res.success` (contributing `(res.fun, res.x)` to `results`),
`none` for a failed run.  If some run failed AND no run succeeded, every
parameter is reset to its factory default (in the dictionary order epsilon,
lambda, omega, sigma) and `(-1, defaults)` is returned; otherwise the best
successful configuration is selected, written back via `set_param_vec`, and
returned.  `none` models the `IndexError` of `sorted([])[0]` when
`num_fits = 0`. -/
def fit (st : MState) (runs : List (Option (ℚ × List ℚ))) :
    Option (MState × (ℚ × List ℚ)) :=
  let results := runs.filterMap id
  if results.length ≠ runs.length ∧ results = [] then
    let st1 := set_param_ok st "epsilon" default_params.epsilon
    let st2 := set_param_ok st1 "lambda" default_params.lambda
    let st3 := set_param_ok st2 "omega" default_params.omega
    let st4 := set_param_ok st3 "sigma" default_params.sigma
    some (st4, (-1, PARAM_NAMES.map (getParam default_params)))
  else
    match min_by_score results with
    | none => none
    | some r => some (set_param_vec st r.2, r)

/-- C7: when every one of the (at least one) local-optimizer runs of a
multi-start `fit` fails, `fit` resets every stored parameter to its factory
default and returns the sentinel failure score -1 together with the default
parameter vector in the order epsilon, lambda, omega, sigma. -/
theorem c7_fit_all_failed_defaults (st : MState)
    (runs : List (Option (ℚ × List ℚ))) (h1 : runs ≠ [])
    (h2 : ∀ r ∈ runs, r = none) :
    ∃ st', fit st runs = some (st', (-1, [0, 4, 1, 0])) ∧
      st'.params = default_params := by
  have hfm : runs.filterMap id = [] := by
    rw [List.filterMap_eq_nil_iff]
    exact h2
  have hcond : (runs.filterMap id).length ≠ runs.length ∧
      runs.filterMap id = [] := by
    refine ⟨?_, hfm⟩
    rw [hfm]
    simp only [List.length_nil]
    exact fun h => h1 (List.length_eq_zero.mp h.symm)
  refine ⟨set_param_ok (set_param_ok (set_param_ok (set_param_ok st "epsilon"
      default_params.epsilon) "lambda" default_params.lambda) "omega"
      default_params.omega) "sigma" default_params.sigma, ?_, ?_⟩
  · unfold fit
    rw [if_pos hcond]
    rfl
  · simp [set_param_ok, set_param, updateParam, PARAM_NAMES, default_params]

/-- Closed witness for C7: a single failed run yields the sentinel score -1,
the default vector [0, 4, 1, 0], and a state holding the factory defaults. -/
theorem c7_fit_all_failed_defaults_witness :
    ∃ st', fit ⟨⟨1, 2, 0, 1⟩, []⟩ [none] = some (st', (-1, [0, 4, 1, 0])) ∧
      st'.params = default_params :=
  c7_fit_all_failed_defaults ⟨⟨1, 2, 0, 1⟩, []⟩ [none]
    (by decide) (fun r hr => by simpa using hr)
